import Mathlib

/-!
Verification of `src/lerobot/cameras/utils.py`: the camera factory
(`make_cameras_from_configs`) and the OpenCV helpers (`get_cv2_rotation`,
`get_cv2_backends`), shallowly embedded in Lean.

Python strings manipulated character-wise (the backend override string) are
embedded as `List Char`; strings only concatenated or compared (keys,
messages, platform names, type tags) are embedded as `String`.
-/

namespace Lerobot

/-! ## OpenCV constants

Numeric constants of the external `cv2` library referenced by the source.
The values are the ones OpenCV defines (`videoio.hpp` / `core.hpp`). -/

namespace cv2

def CAP_ANY : Int := 0
def CAP_V4L : Int := 200
def CAP_DSHOW : Int := 700
def CAP_AVFOUNDATION : Int := 1200
def CAP_MSMF : Int := 1400

def ROTATE_90_CLOCKWISE : Int := 0
def ROTATE_180 : Int := 1
def ROTATE_90_COUNTERCLOCKWISE : Int := 2

end cv2

/-- Whether the current `cv2` build defines the platform-specific capture
constants.  The source reads them with
`getattr(cv2, "CAP_AVFOUNDATION", cv2.CAP_ANY)` (resp. `"CAP_V4L"`), so a
build may lack either. -/
structure Cv2Build where
  hasAVFoundation : Bool
  hasV4L : Bool
deriving DecidableEq

/-- A full build that defines both optional constants. -/
def fullBuild : Cv2Build := ⟨true, true⟩

/-- A build defining neither optional constant. -/
def bareBuild : Cv2Build := ⟨false, false⟩

/-! ## Rotation translator (`get_cv2_rotation`) -/

/-- The `Cv2Rotation` enumeration from `lerobot/cameras/configs.py`
(not under `src/`). Modelled from the spec: closed enumeration
\x7bNone, Rotate90, Rotate180, Rotate270\x7d. -/
inductive Cv2Rotation where
  | NO_ROTATION
  | ROTATE_90
  | ROTATE_180
  | ROTATE_270
deriving DecidableEq

/-- A Python value passed where a `Cv2Rotation` is expected: either a member
of the enumeration, or any other runtime value (identified by its repr).
Python `==` against an enum member is true only for that same member. -/
inductive RotValue where
  | enum : Cv2Rotation → RotValue
  | other : String → RotValue
deriving DecidableEq

/-- Function `get_cv2_rotation` from `utils.py`: successive `==` comparisons
against the three rotating members, with a catch-all `else: return None`. -/
def get_cv2_rotation (rotation : RotValue) : Option Int :=
  if rotation = RotValue.enum Cv2Rotation.ROTATE_90 then
    some cv2.ROTATE_90_CLOCKWISE
  else if rotation = RotValue.enum Cv2Rotation.ROTATE_180 then
    some cv2.ROTATE_180
  else if rotation = RotValue.enum Cv2Rotation.ROTATE_270 then
    some cv2.ROTATE_90_COUNTERCLOCKWISE
  else
    none

/-! ## Backend selector (`get_cv2_backends`)

Python string helpers, embedded character-wise. -/

/-- Python `s.split(",")`: split on every comma, keeping empty pieces
(`"".split(",") == [""]`). -/
def pySplitComma : List Char → List (List Char)
  | [] => [[]]
  | c :: cs =>
    if c = ',' then [] :: pySplitComma cs
    else
      match pySplitComma cs with
      | [] => [[c]]
      | t :: ts => (c :: t) :: ts

/-- Python `s.strip()`: drop leading and trailing whitespace. -/
def pyStrip (s : List Char) : List Char :=
  ((s.dropWhile Char.isWhitespace).reverse.dropWhile Char.isWhitespace).reverse

/-- Python `s.upper()` (ASCII behaviour). -/
def pyUpper (s : List Char) : List Char :=
  s.map Char.toUpper

/-- The fixed token table of `get_cv2_backends`.  `AVFOUNDATION` and `V4L`
degrade to `CAP_ANY` when the build does not define the constant, mirroring
`getattr(cv2, "CAP_...", cv2.CAP_ANY)`. -/
def token_map (b : Cv2Build) (token : List Char) : Option Int :=
  if token = "ANY".data then some cv2.CAP_ANY
  else if token = "DSHOW".data then some cv2.CAP_DSHOW
  else if token = "MSMF".data then some cv2.CAP_MSMF
  else if token = "AVFOUNDATION".data then
    some (if b.hasAVFoundation then cv2.CAP_AVFOUNDATION else cv2.CAP_ANY)
  else if token = "V4L".data then
    some (if b.hasV4L then cv2.CAP_V4L else cv2.CAP_ANY)
  else none

/-- The platform-dependent default ordering computed at the top of
`get_cv2_backends`. -/
def default_order (platformSystem : String) : List Int :=
  if platformSystem = "Windows" then [cv2.CAP_DSHOW, cv2.CAP_MSMF, cv2.CAP_ANY]
  else [cv2.CAP_ANY]

/-- Function `get_cv2_backends` from `utils.py`.  `platformSystem` stands for
`platform.system()` and `override` for
`os.environ.get("LEROBOT_OPENCV_BACKENDS")` (`none` = variable unset).
`if not override` treats the empty string like an unset variable. -/
def get_cv2_backends (b : Cv2Build) (platformSystem : String)
    (override : Option (List Char)) : List Int :=
  match override with
  | none => default_order platformSystem
  | some s =>
    if s = [] then default_order platformSystem
    else
      let backends := s |> pySplitComma |>.foldl (fun acc raw_token =>
        let token := pyUpper (pyStrip raw_token)
        match token_map b token with
        | some v => if v ∈ acc then acc else acc ++ [v]
        | none => acc) []
      if backends = [] then default_order platformSystem else backends

/-! ## Device resolver (`make_cameras_from_configs`)

A Python dict preserves insertion order; a `dict[str, CameraConfig]` is
embedded as an association list in iteration order. -/

/-- A camera configuration record.  Modelled from the spec:
`CameraConfig` (defined in `lerobot/cameras/configs.py`, not under `src/`)
is "a tagged record identifying a camera's driver type (string/enum tag)
plus driver-specific fields".  The driver-specific fields are abstracted
into one opaque `fields` string. -/
structure CameraConfig where
  type : String
  fields : String
deriving DecidableEq

/-- The string representation of a configuration, as interpolated by
`f"... with config {cfg}"`. -/
def CameraConfig.str (cfg : CameraConfig) : String :=
  cfg.type ++ "(" ++ cfg.fields ++ ")"

/-- A constructed camera handle.  Modelled from the spec: a "polymorphic
handle ... implemented by one of several variant drivers \x7bOpenCV,
RealSense, vendor-specific, generic-extension\x7d". -/
inductive Camera where
  | opencv : CameraConfig → Camera
  | realsense : CameraConfig → Camera
  | reachy2 : CameraConfig → Camera
  | generic : CameraConfig → Camera
deriving DecidableEq

/-- A Python exception: either an arbitrary exception carrying its string
form, or the `ValueError` raised by the resolver, carrying its message and
(via `raise ... from e`) its `__cause__`. -/
inductive Exc where
  | error : String → Exc
  | valueError : (message : String) → (cause : Exc) → Exc
deriving DecidableEq

/-- The string form of an exception, as interpolated by `f"...: {e}"`. -/
def Exc.str : Exc → String
  | .error s => s
  | .valueError s _ => s

/-- The driver constructors the resolver calls.  The driver classes
(`OpenCVCamera`, `RealSenseCamera`, `Reachy2Camera`) and the generic
`make_device_from_device_class` facility live outside `src/`; each is an
opaque callable that either returns a camera or raises, so the resolver is
parametrised over them. -/
structure DriverEnv where
  OpenCVCamera : CameraConfig → Except Exc Camera
  RealSenseCamera : CameraConfig → Except Exc Camera
  Reachy2Camera : CameraConfig → Except Exc Camera
  make_device_from_device_class : CameraConfig → Except Exc Camera

/-- A sample environment in which every constructor succeeds. -/
def okEnv : DriverEnv where
  OpenCVCamera cfg := .ok (Camera.opencv cfg)
  RealSenseCamera cfg := .ok (Camera.realsense cfg)
  Reachy2Camera cfg := .ok (Camera.reachy2 cfg)
  make_device_from_device_class cfg := .ok (Camera.generic cfg)

/-- The message of the `ValueError` raised when the generic path fails:
`f"Error creating camera {key} with config {cfg}: {e}"`. -/
def wrapMsg (key : String) (cfg : CameraConfig) (e : Exc) : String :=
  "Error creating camera " ++ key ++ " with config " ++ cfg.str ++ ": " ++ e.str

/-- One iteration of the loop body of `make_cameras_from_configs`: dispatch
on `cfg.type`, known tags routed to their dedicated constructor, anything
else to `make_device_from_device_class` with its failure wrapped in a
`ValueError`. -/
def makeCameraEntry (E : DriverEnv) (key : String) (cfg : CameraConfig) :
    Except Exc Camera :=
  if cfg.type = "opencv" then E.OpenCVCamera cfg
  else if cfg.type = "intelrealsense" then E.RealSenseCamera cfg
  else if cfg.type = "reachy2_camera" then E.Reachy2Camera cfg
  else
    match E.make_device_from_device_class cfg with
    | .ok c => .ok c
    | .error e => .error (Exc.valueError (wrapMsg key cfg e) e)

/-- Function `make_cameras_from_configs` from `utils.py`: iterate the input
mapping
in order, building the output mapping; the first exception aborts the
loop and propagates. -/
def make_cameras_from_configs (E : DriverEnv) :
    List (String × CameraConfig) → Except Exc (List (String × Camera))
  | [] => .ok []
  | (key, cfg) :: rest =>
    match makeCameraEntry E key cfg with
    | .error e => .error e
    | .ok c =>
      match make_cameras_from_configs E rest with
      | .error e => .error e
      | .ok cams => .ok ((key, c) :: cams)

/-- The type tags the dispatcher recognises. -/
def knownTag (t : String) : Bool :=
  t = "opencv" || t = "intelrealsense" || t = "reachy2_camera"

/-- The dedicated constructor a known tag routes to. -/
def dedicatedCtor (E : DriverEnv) (cfg : CameraConfig) : Except Exc Camera :=
  if cfg.type = "opencv" then E.OpenCVCamera cfg
  else if cfg.type = "intelrealsense" then E.RealSenseCamera cfg
  else E.Reachy2Camera cfg

/-! ## Spec-side description of the override parsing

The spec describes the override handling as: split on commas, trim and
upper-case each token, look each up in the token table dropping unknown
ones, then keep each resolved id's first occurrence. -/

/-- The resolved ids of an override string, in order of appearance, unknown
tokens dropped — the spec's description before deduplication. -/
def resolveTokens (b : Cv2Build) (s : List Char) : List Int :=
  (pySplitComma s).filterMap (fun raw => token_map b (pyUpper (pyStrip raw)))

/-- First-occurrence deduplication, skipping ids already seen. -/
def dedupFirstAux (seen : List Int) : List Int → List Int
  | [] => []
  | v :: vs =>
    if v ∈ seen then dedupFirstAux seen vs else v :: dedupFirstAux (v :: seen) vs

/-- First-occurrence deduplication of a list of ids. -/
def dedupFirst (l : List Int) : List Int :=
  dedupFirstAux [] l

theorem dedupFirstAux_congr (l : List Int) :
    ∀ s₁ s₂ : List Int, (∀ x, x ∈ s₁ ↔ x ∈ s₂) →
      dedupFirstAux s₁ l = dedupFirstAux s₂ l := by
  induction l with
  | nil => intro s₁ s₂ _; rfl
  | cons v vs ih =>
    intro s₁ s₂ h
    by_cases hv : v ∈ s₁
    · rw [dedupFirstAux, dedupFirstAux, if_pos hv, if_pos ((h v).mp hv), ih s₁ s₂ h]
    · rw [dedupFirstAux, dedupFirstAux, if_neg hv, if_neg (fun hc => hv ((h v).mpr hc))]
      exact congrArg (v :: ·) (ih _ _ (by intro x; simp [h x]))

/-- The accumulator loop of `get_cv2_backends` appends exactly the
first-occurrence-deduplicated resolved ids. -/
theorem foldl_backends_eq (f : List Char → Option Int) (toks : List (List Char)) :
    ∀ acc : List Int,
      toks.foldl (fun acc raw =>
          match f raw with
          | some v => if v ∈ acc then acc else acc ++ [v]
          | none => acc) acc
        = acc ++ dedupFirstAux acc (toks.filterMap f) := by
  induction toks with
  | nil => intro acc; simp [dedupFirstAux]
  | cons x xs ih =>
    intro acc
    rw [List.foldl_cons, List.filterMap_cons]
    cases hfx : f x with
    | none => simpa using ih acc
    | some v =>
      by_cases hv : v ∈ acc
      · simp only [hv, if_pos, dedupFirstAux, ih acc]
      · simp only [hv, if_neg, dedupFirstAux, ite_false]
        rw [ih (acc ++ [v]),
          dedupFirstAux_congr _ (acc ++ [v]) (v :: acc) (by intro x; simp; tauto)]
        simp

/-- The body of `get_cv2_backends` on a non-empty override string equals the
spec-side pipeline with a fallback to the platform default. -/
theorem get_cv2_backends_some (b : Cv2Build) (p : String) (s : List Char)
    (hs : s ≠ []) :
    get_cv2_backends b p (some s)
      = (if dedupFirst (resolveTokens b s) = [] then default_order p
         else dedupFirst (resolveTokens b s)) := by
  have hfold := foldl_backends_eq (fun raw => token_map b (pyUpper (pyStrip raw)))
    (pySplitComma s) []
  simp only [List.nil_append] at hfold
  simp only [get_cv2_backends, if_neg hs]
  rw [hfold]
  rfl

/-! ## Claim theorems -/

/-- C5: on a non-empty override string whose parse is non-empty,
`get_cv2_backends` returns exactly the comma-split, trimmed, upper-cased
tokens' resolved ids in order of appearance, unknown tokens dropped, with
first-occurrence deduplication by resolved numeric id. -/
theorem C5_override_parsing (b : Cv2Build) (p : String) (s : List Char)
    (hs : s ≠ []) (hnz : dedupFirst (resolveTokens b s) ≠ []) :
    get_cv2_backends b p (some s) = dedupFirst (resolveTokens b s) := by
  rw [get_cv2_backends_some b p s hs, if_neg hnz]

theorem C5_override_parsing_witness :
    ("dshow, ANY, bogus, dshow".data ≠ [])
    ∧ dedupFirst (resolveTokens fullBuild "dshow, ANY, bogus, dshow".data)
        = [cv2.CAP_DSHOW, cv2.CAP_ANY]
    ∧ get_cv2_backends fullBuild "Linux" (some "dshow, ANY, bogus, dshow".data)
        = dedupFirst (resolveTokens fullBuild "dshow, ANY, bogus, dshow".data) :=
  ⟨by decide, by decide,
    C5_override_parsing fullBuild "Linux" "dshow, ANY, bogus, dshow".data
      (by decide) (by decide)⟩

/-- C6: an override that yields no recognized token (entirely unrecognized
tokens, or the empty string) makes `get_cv2_backends` return the platform
default, never an empty sequence. -/
theorem C6_fallback_on_empty (b : Cv2Build) (p : String) (s : List Char)
    (h : resolveTokens b s = []) :
    get_cv2_backends b p (some s) = default_order p := by
  by_cases hs : s = []
  · subst hs; rfl
  · rw [get_cv2_backends_some b p s hs, h]
    simp [dedupFirst, dedupFirstAux]

theorem C6_fallback_on_empty_witness :
    resolveTokens fullBuild "bogus,other".data = []
    ∧ get_cv2_backends fullBuild "Linux" (some "bogus,other".data)
        = default_order "Linux" :=
  ⟨by decide, C6_fallback_on_empty fullBuild "Linux" "bogus,other".data (by decide)⟩

/-- C8: on a build lacking `CAP_AVFOUNDATION` or `CAP_V4L`, the
corresponding override token resolves to the generic `CAP_ANY` id instead of
failing, and `get_cv2_backends` accepts such a token. -/
theorem C8_missing_constants (b : Cv2Build)
    (h1 : b.hasAVFoundation = false) (h2 : b.hasV4L = false) :
    token_map b "AVFOUNDATION".data = some cv2.CAP_ANY
    ∧ token_map b "V4L".data = some cv2.CAP_ANY
    ∧ get_cv2_backends b "Linux" (some "AVFOUNDATION,V4L".data) = [cv2.CAP_ANY] := by
  have hb : b = bareBuild := by cases b; simp_all [bareBuild]
  subst hb
  decide

/-- On a known tag the loop body is exactly the tag's dedicated constructor
call. -/
theorem makeCameraEntry_known (E : DriverEnv) (key : String) (cfg : CameraConfig)
    (h : knownTag cfg.type = true) :
    makeCameraEntry E key cfg = dedicatedCtor E cfg := by
  have h' : cfg.type = "opencv" ∨ cfg.type = "intelrealsense"
      ∨ cfg.type = "reachy2_camera" := by
    simpa [knownTag, or_assoc] using h
  rcases h' with h1 | h1 | h1 <;> simp [makeCameraEntry, dedicatedCtor, h1]

/-- On an unknown tag the loop body goes through the generic path. -/
theorem makeCameraEntry_unknown (E : DriverEnv) (key : String) (cfg : CameraConfig)
    (h : knownTag cfg.type = false) :
    makeCameraEntry E key cfg
      = match E.make_device_from_device_class cfg with
        | .ok c => .ok c
        | .error e => .error (Exc.valueError (wrapMsg key cfg e) e) := by
  simp only [knownTag, Bool.or_eq_false_iff, decide_eq_false_iff_not] at h
  simp [makeCameraEntry, h.1.1, h.1.2, h.2]

/-- A sample environment whose generic construction path always raises. -/
def genericFailEnv : DriverEnv :=
  { okEnv with make_device_from_device_class := fun _ => .error (Exc.error "boom") }

/-- C1: when every entry carries a known tag, the resolver's output has the
same keys in the same order, each bound to the dedicated constructor's
result, and is independent of the generic construction facility —
`make_device_from_device_class` is never invoked. -/
theorem C1_known_tags (co re ry g g' : CameraConfig → Except Exc Camera)
    (configs : List (String × CameraConfig))
    (hknown : ∀ p ∈ configs, knownTag p.2.type = true)
    (hsucc : ∀ p ∈ configs, ∃ c, dedicatedCtor ⟨co, re, ry, g⟩ p.2 = .ok c) :
    make_cameras_from_configs ⟨co, re, ry, g⟩ configs
      = make_cameras_from_configs ⟨co, re, ry, g'⟩ configs
    ∧ ∃ out, make_cameras_from_configs ⟨co, re, ry, g⟩ configs = .ok out
        ∧ out.map Prod.fst = configs.map Prod.fst
        ∧ List.Forall₂
            (fun p q => p.1 = q.1 ∧ dedicatedCtor ⟨co, re, ry, g⟩ p.2 = .ok q.2)
            configs out := by
  induction configs with
  | nil => exact ⟨rfl, [], rfl, rfl, List.Forall₂.nil⟩
  | cons p ps ih =>
    obtain ⟨key, cfg⟩ := p
    obtain ⟨c, hc⟩ := hsucc _ (List.mem_cons_self _ _)
    have hk : knownTag cfg.type = true := hknown _ (List.mem_cons_self _ _)
    have hc' : dedicatedCtor ⟨co, re, ry, g'⟩ cfg = .ok c := hc
    obtain ⟨heq, out, hout, hkeys, hall⟩ :=
      ih (fun q hq => hknown q (List.mem_cons_of_mem _ hq))
        (fun q hq => hsucc q (List.mem_cons_of_mem _ hq))
    refine ⟨?_, (key, c) :: out, ?_, ?_, ?_⟩
    · rw [make_cameras_from_configs, make_cameras_from_configs,
        makeCameraEntry_known _ key cfg hk, makeCameraEntry_known _ key cfg hk,
        hc, hc', heq]
    · rw [make_cameras_from_configs, makeCameraEntry_known _ key cfg hk, hc, hout]
    · simpa using hkeys
    · exact List.Forall₂.cons ⟨rfl, hc⟩ hall

theorem C1_known_tags_witness :
    (∀ p ∈ ([("a", ⟨"opencv", "x"⟩), ("b", ⟨"intelrealsense", "y"⟩),
        ("c", ⟨"reachy2_camera", "z"⟩)] : List (String × CameraConfig)),
      knownTag p.2.type = true)
    ∧ (make_cameras_from_configs
          ⟨okEnv.OpenCVCamera, okEnv.RealSenseCamera, okEnv.Reachy2Camera,
            fun _ => .ok (Camera.generic ⟨"g", "g"⟩)⟩
          [("a", ⟨"opencv", "x"⟩), ("b", ⟨"intelrealsense", "y"⟩),
            ("c", ⟨"reachy2_camera", "z"⟩)]
        = make_cameras_from_configs
            ⟨okEnv.OpenCVCamera, okEnv.RealSenseCamera, okEnv.Reachy2Camera,
              fun _ => .error (Exc.error "never")⟩
            [("a", ⟨"opencv", "x"⟩), ("b", ⟨"intelrealsense", "y"⟩),
              ("c", ⟨"reachy2_camera", "z"⟩)]
      ∧ ∃ out,
          make_cameras_from_configs
            ⟨okEnv.OpenCVCamera, okEnv.RealSenseCamera, okEnv.Reachy2Camera,
              fun _ => .ok (Camera.generic ⟨"g", "g"⟩)⟩
            [("a", ⟨"opencv", "x"⟩), ("b", ⟨"intelrealsense", "y"⟩),
              ("c", ⟨"reachy2_camera", "z"⟩)] = .ok out
          ∧ out.map Prod.fst
              = ([("a", ⟨"opencv", "x"⟩), ("b", ⟨"intelrealsense", "y"⟩),
                  ("c", ⟨"reachy2_camera", "z"⟩)] : List (String × CameraConfig)).map
                  Prod.fst
          ∧ List.Forall₂
              (fun p q => p.1 = q.1
                ∧ dedicatedCtor
                    ⟨okEnv.OpenCVCamera, okEnv.RealSenseCamera, okEnv.Reachy2Camera,
                      fun _ => .ok (Camera.generic ⟨"g", "g"⟩)⟩ p.2 = .ok q.2)
              [("a", ⟨"opencv", "x"⟩), ("b", ⟨"intelrealsense", "y"⟩),
                ("c", ⟨"reachy2_camera", "z"⟩)] out) :=
  ⟨by decide,
    C1_known_tags okEnv.OpenCVCamera okEnv.RealSenseCamera okEnv.Reachy2Camera
      (fun _ => .ok (Camera.generic ⟨"g", "g"⟩)) (fun _ => .error (Exc.error "never"))
      [("a", ⟨"opencv", "x"⟩), ("b", ⟨"intelrealsense", "y"⟩),
        ("c", ⟨"reachy2_camera", "z"⟩)]
      (by decide)
      (by
        intro p hp
        simp only [List.mem_cons, List.not_mem_nil, or_false] at hp
        rcases hp with h | h | h <;> subst h <;> exact ⟨_, rfl⟩)⟩

/-- C2: an unknown tag whose generic construction raises makes the resolver
raise a `ValueError` whose message contains the camera's logical name and
the configuration's string form, with the original exception as cause; a
known tag's constructor failure propagates unwrapped. -/
theorem C2_generic_wrapped (E : DriverEnv) (key : String) (cfg : CameraConfig)
    (e : Exc) :
    (knownTag cfg.type = false → E.make_device_from_device_class cfg = .error e →
      makeCameraEntry E key cfg = .error (Exc.valueError (wrapMsg key cfg e) e)
      ∧ (∃ s t, s ++ key ++ t = wrapMsg key cfg e)
      ∧ (∃ s t, s ++ cfg.str ++ t = wrapMsg key cfg e))
    ∧ (knownTag cfg.type = true → makeCameraEntry E key cfg = dedicatedCtor E cfg) := by
  constructor
  · intro hu hfail
    refine ⟨by rw [makeCameraEntry_unknown E key cfg hu, hfail], ?_, ?_⟩
    · exact ⟨"Error creating camera ", " with config " ++ cfg.str ++ ": " ++ e.str,
        by simp [wrapMsg, String.append_assoc]⟩
    · exact ⟨"Error creating camera " ++ key ++ " with config ", ": " ++ e.str,
        by simp [wrapMsg, String.append_assoc]⟩
  · exact makeCameraEntry_known E key cfg

theorem C2_generic_wrapped_witness :
    makeCameraEntry genericFailEnv "cam0" ⟨"custom", "id=1"⟩
      = .error (Exc.valueError (wrapMsg "cam0" ⟨"custom", "id=1"⟩ (Exc.error "boom"))
          (Exc.error "boom")) :=
  ((C2_generic_wrapped genericFailEnv "cam0" ⟨"custom", "id=1"⟩
      (Exc.error "boom")).1 (by decide) rfl).1

/-- C3: the resolver is fail-fast and all-or-nothing: with every entry
before the failing one succeeding, the call returns that first failure —
whatever entries follow — so no later constructor can influence the result
and no partial mapping is returned. -/
theorem C3_fail_fast (E : DriverEnv) (pre : List (String × CameraConfig))
    (key : String) (cfg : CameraConfig) (e : Exc)
    (hpre : ∀ p ∈ pre, ∃ c, makeCameraEntry E p.1 p.2 = .ok c)
    (hfail : makeCameraEntry E key cfg = .error e) :
    ∀ rest, make_cameras_from_configs E (pre ++ (key, cfg) :: rest) = .error e := by
  induction pre with
  | nil =>
    intro rest
    rw [List.nil_append, make_cameras_from_configs, hfail]
  | cons p ps ih =>
    intro rest
    obtain ⟨k₁, c₁⟩ := p
    obtain ⟨c, hc⟩ := hpre _ (List.mem_cons_self _ _)
    rw [List.cons_append, make_cameras_from_configs, hc,
      ih (fun q hq => hpre q (List.mem_cons_of_mem _ hq)) rest]

theorem C3_fail_fast_witness :
    make_cameras_from_configs genericFailEnv
        ([("good", ⟨"opencv", "a"⟩)]
          ++ ("bad", ⟨"custom", "b"⟩) :: [("later", ⟨"opencv", "c"⟩)])
      = .error (Exc.valueError
          (wrapMsg "bad" ⟨"custom", "b"⟩ (Exc.error "boom")) (Exc.error "boom")) :=
  C3_fail_fast genericFailEnv [("good", ⟨"opencv", "a"⟩)] "bad" ⟨"custom", "b"⟩
    (Exc.valueError (wrapMsg "bad" ⟨"custom", "b"⟩ (Exc.error "boom"))
      (Exc.error "boom"))
    (by
      intro p hp
      simp only [List.mem_cons, List.not_mem_nil, or_false] at hp
      subst hp
      exact ⟨Camera.opencv ⟨"opencv", "a"⟩, rfl⟩)
    rfl [("later", ⟨"opencv", "c"⟩)]

theorem C8_missing_constants_witness :
    bareBuild.hasAVFoundation = false ∧ bareBuild.hasV4L = false
    ∧ (token_map bareBuild "AVFOUNDATION".data = some cv2.CAP_ANY
        ∧ token_map bareBuild "V4L".data = some cv2.CAP_ANY
        ∧ get_cv2_backends bareBuild "Linux" (some "AVFOUNDATION,V4L".data)
            = [cv2.CAP_ANY]) :=
  ⟨rfl, rfl, C8_missing_constants bareBuild rfl rfl⟩

/-- C4: with no override, `get_cv2_backends` returns exactly
`[CAP_DSHOW, CAP_MSMF, CAP_ANY]` on Windows and `[CAP_ANY]` on every other
platform. -/
theorem C4_default_backends (b : Cv2Build) (p : String) (hp : p ≠ "Windows") :
    get_cv2_backends b "Windows" none = [cv2.CAP_DSHOW, cv2.CAP_MSMF, cv2.CAP_ANY]
    ∧ get_cv2_backends b p none = [cv2.CAP_ANY] := by
  refine ⟨rfl, ?_⟩
  simp [get_cv2_backends, default_order, hp]

theorem C4_default_backends_witness :
    ("Linux" ≠ "Windows")
    ∧ (get_cv2_backends fullBuild "Windows" none
          = [cv2.CAP_DSHOW, cv2.CAP_MSMF, cv2.CAP_ANY]
        ∧ get_cv2_backends fullBuild "Linux" none = [cv2.CAP_ANY]) :=
  ⟨by decide, C4_default_backends fullBuild "Linux" (by decide)⟩

/-- C7: `get_cv2_rotation` maps `NO_ROTATION` to `None`, `ROTATE_90` to the
clockwise-90 code, `ROTATE_180` to the 180 code and `ROTATE_270` to the
counter-clockwise-90 code; the three codes are pairwise distinct and
non-negative, and the whole enumeration is handled without failure. -/
theorem C7_rotation_codes :
    get_cv2_rotation (RotValue.enum Cv2Rotation.NO_ROTATION) = none
    ∧ get_cv2_rotation (RotValue.enum Cv2Rotation.ROTATE_90)
        = some cv2.ROTATE_90_CLOCKWISE
    ∧ get_cv2_rotation (RotValue.enum Cv2Rotation.ROTATE_180) = some cv2.ROTATE_180
    ∧ get_cv2_rotation (RotValue.enum Cv2Rotation.ROTATE_270)
        = some cv2.ROTATE_90_COUNTERCLOCKWISE
    ∧ cv2.ROTATE_90_CLOCKWISE ≠ cv2.ROTATE_180
    ∧ cv2.ROTATE_90_CLOCKWISE ≠ cv2.ROTATE_90_COUNTERCLOCKWISE
    ∧ cv2.ROTATE_180 ≠ cv2.ROTATE_90_COUNTERCLOCKWISE
    ∧ 0 ≤ cv2.ROTATE_90_CLOCKWISE ∧ 0 ≤ cv2.ROTATE_180
    ∧ 0 ≤ cv2.ROTATE_90_COUNTERCLOCKWISE := by
  decide

/-- C10: `get_cv2_rotation` is total over every runtime value: any argument
other than the three rotating enumeration members — including values outside
the enumeration — falls into the catch-all branch and yields `None`. -/
theorem C10_rotation_catch_all (v : RotValue)
    (h90 : v ≠ RotValue.enum Cv2Rotation.ROTATE_90)
    (h180 : v ≠ RotValue.enum Cv2Rotation.ROTATE_180)
    (h270 : v ≠ RotValue.enum Cv2Rotation.ROTATE_270) :
    get_cv2_rotation v = none := by
  simp [get_cv2_rotation, h90, h180, h270]

theorem C10_rotation_catch_all_witness :
    get_cv2_rotation (RotValue.other "3.14") = none :=
  C10_rotation_catch_all (RotValue.other "3.14") (by decide) (by decide) (by decide)

/-- C9: on the empty mapping, `make_cameras_from_configs` returns the empty
mapping with no error, for every driver environment — so no constructor and
no driver import is ever consulted. -/
theorem C9_empty_mapping (E : DriverEnv) :
    make_cameras_from_configs E [] = Except.ok [] :=
  rfl

end Lerobot
